import Mathlib

/-!
Shallow embedding of `src/lp2gh.py`, a command-line utility that migrates a
single bug from Launchpad to GitHub.  Pure data flow, printed lines and the
sequence of mutating remote API calls are modelled explicitly; unhandled
Python exceptions are modelled as a `crashed` outcome.
-/

namespace Lp2gh

set_option maxRecDepth 100000
set_option maxHeartbeats 1000000

/-- Constant `RELOC_TAG` (src/lp2gh.py line 75). -/
def RELOC_TAG : String := "relocated-to-github"

/-- Constant `GH_TRIAGE_LABEL` (line 76). -/
def GH_TRIAGE_LABEL : String := "state/untriaged"

/-- Constant `GH_IMPORT_LABEL` (line 77). -/
def GH_IMPORT_LABEL : String := "imported-from-lp"

/-- Constant `GH_DEFAULT_REPO` (line 78). -/
def GH_DEFAULT_REPO : String := "sinanawad/utils"

/-- Parsed command-line arguments (lines 195-204).  `github_token` and
`github_assignee` default to the literal string "None" in the source. -/
structure Args where
  lp_bug_id : Nat
  github_token : String := "None"
  github_assignee : String := "None"
  github_repo : String := GH_DEFAULT_REPO
  do_not_assign : Bool := false
  commit_changes : Bool := false
  i_am_sure : Bool := false
deriving DecidableEq

/-- The Launchpad bug record, as observed through the launchpadlib handle:
id, title, description, web link, owner name, tag list, message (comment)
list, and the importance of each bug task (`bug_tasks[i].importance`). -/
structure LpBug where
  id : Nat
  title : String
  description : String
  web_link : String
  owner_name : String
  tags : List String
  messages : List String
  task_importances : List String
deriving DecidableEq

/-- A created GitHub issue; the script only ever reads its `html_url`. -/
structure GhIssue where
  html_url : String
deriving DecidableEq

/-- One mutating remote API call, on either system. -/
inductive MutCall where
  | ghCreateIssue (title body : String)
  | ghIssueComment (text : String)
  | ghAddLabel (lab : String)
  | ghEditAssignees (assignees : List String)
  | lpNewMessage (content : String)
  | lpSave
deriving DecidableEq

/-- Does the call create a destination (GitHub) issue? -/
def MutCall.isCreate : MutCall → Bool
  | .ghCreateIssue _ _ => true
  | _ => false

/-- Is the call the Launchpad `newMessage` (source-record comment)? -/
def MutCall.isNewMessage : MutCall → Bool
  | .lpNewMessage _ => true
  | _ => false

/-- Is the call the Launchpad `lp_save` (tag persistence)? -/
def MutCall.isLpSave : MutCall → Bool
  | .lpSave => true
  | _ => false

/-- The environment of one run: the result of `gh auth status` scraping
(`none` models any failure of `gh_get_user_token_from_cli`), the identity
link printed by `lp_login`, the Launchpad bug behind `lp.bugs[id]`, the
operator's answer at the confirmation prompt, the timestamp rendered by
`datetime.datetime.now()`, and the `html_url` GitHub assigns to a newly
created issue. -/
structure World where
  ghCliResult : Option (String × String)
  lpSelfLink : String
  bug : LpBug
  promptLine : String
  now : String
  issueUrl : String
deriving DecidableEq

/-- How the process ends: `exited c` models `sys.exit()` / normal return
(exit status `c`; a bare `sys.exit()` exits with status 0), `crashed`
models an unhandled Python exception. -/
inductive Outcome where
  | exited (code : Nat)
  | crashed (msg : String)
deriving DecidableEq

/-- Observable result of one run: the outcome, the mutating remote calls
in order, the printed lines (stdout and stderr merged, one entry per
`print`), and the source bug's server-side state at exit. -/
structure RunResult where
  outcome : Outcome
  muts : List MutCall
  log : List String
  finalBug : LpBug
deriving DecidableEq

/-- Embeds the bug-details block printed by `print_lp_bug_details`
(lines 174-179). -/
def print_lp_bug_details (lp_bug : LpBug) : List String :=
  ["\tBug ID: " ++ toString lp_bug.id,
   "\tTitle: " ++ lp_bug.title,
   "\tWeb Link: " ++ lp_bug.web_link,
   "\tOwner: " ++ lp_bug.owner_name]

/-- Embeds `gh_create_issue` (lines 118-149).  Parameters `commit` and
`repoName` stand for the globals `global_commit_changes` and
`global_github_repo_name`.  Returns the created issue (`ok none` in
dry-run), the mutating GitHub calls made, and the printed lines.  An
`error` models an uncaught exception: `get_repo` on the unset global, or
`bug_tasks[0]` on an empty task list (reached only with the commit flag
set, after the issue was already created). -/
def gh_create_issue (lp_bug : LpBug) (args : Args) (commit : Bool)
    (repoName : Option String) (w : World) :
    Except String (Option GhIssue) × List MutCall × List String :=
  match repoName with
  | none => (Except.error "TypeError: repository name is None", [], [])
  | some rn =>
    let logLoaded := "GH: Loaded repo: " ++ rn
    let gh_issue_title := "LP:" ++ toString lp_bug.id ++ " " ++ lp_bug.title
    if commit then
      let createMut := MutCall.ghCreateIssue gh_issue_title lp_bug.description
      let logCreated := "GH: Created new issue: " ++ w.issueUrl
      match lp_bug.task_importances with
      | [] =>
        (Except.error "IndexError: list index out of range",
         [createMut], [logLoaded, logCreated])
      | imp :: _ =>
        let comment := "This issue was imported from Launchpad by "
          ++ args.github_assignee ++ " on " ++ w.now
          ++ " \nOriginal Launchpad bug: " ++ lp_bug.web_link
          ++ "\nOriginal Owner: " ++ lp_bug.owner_name
          ++ "\nOriginal Importance: " ++ imp
        let muts1 := [createMut, MutCall.ghIssueComment comment,
          MutCall.ghAddLabel GH_TRIAGE_LABEL, MutCall.ghAddLabel GH_IMPORT_LABEL]
        let log1 := [logLoaded, logCreated, "GH: Added Launchpad bug link to issue"]
        if args.do_not_assign then
          (Except.ok (some ⟨w.issueUrl⟩), muts1, log1)
        else
          (Except.ok (some ⟨w.issueUrl⟩),
           muts1 ++ [MutCall.ghEditAssignees [args.github_assignee]],
           log1 ++ ["GH: Assigned issue to " ++ args.github_assignee])
    else
      let log1 := [logLoaded,
        "GH: Dry-run: Would create new issue: " ++ lp_bug.title,
        "GH: Added Launchpad bug link to issue"]
      if args.do_not_assign then
        (Except.ok none, [], log1)
      else
        (Except.ok none, [], log1 ++ ["GH: Assigned issue to " ++ args.github_assignee])

/-- The comment text posted to the Launchpad bug (line 155). -/
def lp_move_comment (gh_issue : GhIssue) (w : World) : String :=
  "\t---------\nThis issue has been moved to GitHub: " ++ gh_issue.html_url
    ++ " on " ++ w.now
    ++ "\nPlease visit the link on GitHub to continue the discussion, do not comment here.\n\t---------\n"

/-- Embeds `lp_update_bug` (lines 153-171).  `newMessage` is a Launchpad
webservice named operation that posts the comment to the server at once;
the `tags` change is local to the handle until `lp_save` persists it.  The
returned record is the server-side state of the bug afterwards. -/
def lp_update_bug (lp_bug : LpBug) (gh_issue : GhIssue) (commit : Bool) (w : World) :
    LpBug × List MutCall × List String :=
  let content := lp_move_comment gh_issue w
  let bug1 := { lp_bug with messages := lp_bug.messages ++ [content] }
  let localTags := bug1.tags ++ [RELOC_TAG]
  let log1 := ["LP: Added GitHub issue link",
    "LP: Added tag \"" ++ RELOC_TAG ++ "\""]
  if commit then
    ({ bug1 with tags := localTags },
     [MutCall.lpNewMessage content, MutCall.lpSave],
     log1 ++ ["LP: Saved bug"])
  else
    (bug1, [MutCall.lpNewMessage content], log1 ++ ["LP: Bug was NOT saved"])

/-- The assignee value in effect after the credential-resolution block
(lines 208-220): when the token was not given on the command line and the
gh CLI succeeds, an unset assignee is replaced by the CLI account. -/
def resolvedAssignee (args : Args) (w : World) : String :=
  if args.github_token = "None" then
    match w.ghCliResult with
    | some (_, acct) =>
      if args.github_assignee = "None" then acct else args.github_assignee
    | none => args.github_assignee
  else args.github_assignee

/-- Embeds lines 275-283 of `main`: call `gh_create_issue`; when it
returns no issue, print and `sys.exit()`; otherwise run `lp_update_bug`
and print "Done!". -/
def mainProceed (args : Args) (commit : Bool) (repoName : Option String)
    (log0 : List String) (w : World) : RunResult :=
  match gh_create_issue w.bug args commit repoName w with
  | (Except.error e, muts, glog) =>
      { outcome := Outcome.crashed e, muts := muts,
        log := log0 ++ glog, finalBug := w.bug }
  | (Except.ok none, muts, glog) =>
      { outcome := Outcome.exited 0, muts := muts,
        log := log0 ++ glog ++ ["GH: Issue was NOT created. Exiting."],
        finalBug := w.bug }
  | (Except.ok (some issue), muts, glog) =>
      let r := lp_update_bug w.bug issue commit w
      { outcome := Outcome.exited 0, muts := muts ++ r.2.1,
        log := log0 ++ glog ++ r.2.2 ++ ["Done!"], finalBug := r.1 }

/-- The lowercasing applied to the operator's answer at the confirmation
prompt (`proceed.lower()`, line 269), over the characters of the string.
(`String.toLower` itself is not kernel-reducible, so the map is spelled
out.) -/
def lowerStr (s : String) : String := String.mk (s.data.map Char.toLower)

/-- The lines printed up to the end of credential resolution when the
token and the assignee both come from the gh CLI. -/
def cliLogA (acct : String) : List String :=
  ["Bootstrapping...",
   "GH: No token provided via command-line, attempting fetch from \x27gh\x27 CLI",
   "GH: Token successfully loaded for account " ++ acct ++ " from gh CLI"]

/-- The lines printed up to the end of credential resolution when the
token comes from the gh CLI but the assignee was given on the command
line. -/
def cliLogB (acct assignee : String) : List String :=
  cliLogA acct ++ ["GH: Assignee provided via command-line: " ++ assignee]

/-- Embeds lines 222-283 of `main`, after the credential-resolution block:
configuration printing, the assignee requirement check, both logins, the
bug fetch, the already-relocated guard, the confirmation gate, then
`mainProceed`.  `details` is `gh_user_details`: it is `none` on the code
path where that local variable was never assigned (token supplied on the
command line), in which case `gh_login(gh_user_details)` raises
`UnboundLocalError`. -/
def mainAfterCreds (args : Args) (details : Option (String × String))
    (log0 : List String) (w : World) : RunResult :=
  let commit := args.commit_changes
  let log1 := log0 ++ ["\nTool Configuration:"]
  let repoName : Option String :=
    if args.github_repo = "" then none else some args.github_repo
  let log2 := log1 ++ (if args.github_repo = "" then []
    else ["\t> The new GitHub issue will be created in " ++ args.github_repo])
  let log3 := log2 ++ (if args.github_assignee = ""
    then ["\t> No assignee provided for the GitHub issue."]
    else ["\t> GitHub assignee is " ++ args.github_assignee])
  if args.do_not_assign = false ∧ args.github_assignee = "None" then
    { outcome := Outcome.exited 0, muts := [],
      log := log3 ++
        ["Error: GitHub assignee is required when --do_not_assign is not provided."],
      finalBug := w.bug }
  else
    let log4 := log3 ++ (if args.do_not_assign
      then ["\t> GitHub issue will NOT be automatically assigned."]
      else ["\t> GitHub issue will be automatically assigned to " ++ args.github_assignee])
    let log5 := log4 ++ ["\nLogging in. Please follow instructions if prompted.",
      "LP: Running as: " ++ w.lpSelfLink]
    match details with
    | none =>
        { outcome := Outcome.crashed
            "UnboundLocalError: local variable \x27gh_user_details\x27 referenced before assignment",
          muts := [], log := log5, finalBug := w.bug }
    | some d =>
      let log6 := log5 ++ ["GH: Running as " ++ d.2, "", "LP: Bug to be relocated:"]
        ++ print_lp_bug_details w.bug
      if RELOC_TAG ∈ w.bug.tags then
        { outcome := Outcome.exited 0, muts := [],
          log := log6 ++ ["Bug " ++ toString w.bug.id
            ++ " was already relocated to GitHub! (it has the " ++ RELOC_TAG ++ " tag)"],
          finalBug := w.bug }
      else
        let log7 := log6 ++ [if commit
          then "!! ATTENTION: Changes will be committed to GitHub and Launchpad. !!\n"
          else "Changes will NOT be committed, neither to GitHub nor to Launchpad.\n"]
        if args.i_am_sure then
          mainProceed args commit repoName log7 w
        else if lowerStr w.promptLine = "y" then
          mainProceed args commit repoName
            (log7 ++ ["Proceed with moving the bug to GitHub? [y/N]:", "\nProceeding..."]) w
        else
          { outcome := Outcome.exited 0, muts := [],
            log := log7 ++ ["Proceed with moving the bug to GitHub? [y/N]:", "User opted out."],
            finalBug := w.bug }

/-- Embeds `main` (lines 190-283).  First the credential-resolution block
(lines 208-220): only when the token argument equals "None" is the gh CLI
consulted and the local `gh_user_details` assigned; on CLI failure the
script prints and calls a bare `sys.exit()`. -/
def main (args : Args) (w : World) : RunResult :=
  let log0 := ["Bootstrapping..."]
  if args.github_token = "None" then
    let log1 := log0 ++
      ["GH: No token provided via command-line, attempting fetch from \x27gh\x27 CLI"]
    match w.ghCliResult with
    | none =>
        { outcome := Outcome.exited 0, muts := [],
          log := log1 ++
            ["Failed to get GitHub token from gh CLI: Failed to get GitHub token using gh CLI"],
          finalBug := w.bug }
    | some (tok, acct) =>
        let log2 := log1 ++
          ["GH: Token successfully loaded for account " ++ acct ++ " from gh CLI"]
        if args.github_assignee = "None" then
          mainAfterCreds { args with github_token := tok, github_assignee := acct }
            (some (tok, acct)) log2 w
        else
          mainAfterCreds { args with github_token := tok }
            (some (tok, args.github_assignee))
            (log2 ++ ["GH: Assignee provided via command-line: " ++ args.github_assignee]) w
  else
    mainAfterCreds args none log0 w

/-! Concrete fixtures used by witnesses and counterexamples. -/

/-- A sample Launchpad bug matching the spec's worked example. -/
def exBug : LpBug :=
  { id := 123, title := "Crash on save", description := "Steps...",
    web_link := "https://bugs.launchpad.net/bugs/123", owner_name := "carol",
    tags := ["ui"], messages := ["first report"], task_importances := ["High"] }

/-- The sample bug already carrying the relocation tag. -/
def exBugTagged : LpBug := { exBug with tags := ["ui", RELOC_TAG] }

/-- A sample environment: gh CLI succeeds, operator answers "n". -/
def exWorld : World :=
  { ghCliResult := some ("ghp_tok", "alice"),
    lpSelfLink := "https://launchpad.net/~alice",
    bug := exBug, promptLine := "n", now := "2026-10-12 09:00:00",
    issueUrl := "https://github.com/sinanawad/utils/issues/1" }

/-- The sample environment with operator answer "Y". -/
def exWorldY : World := { exWorld with promptLine := "Y" }

/-- The sample environment whose bug is already relocated. -/
def exWorldTagged : World := { exWorld with bug := exBugTagged }

/-- Default-flag arguments (dry run, token and assignee from the gh CLI). -/
def exArgsDry : Args := { lp_bug_id := 123 }

/-- Dry-run arguments with the confirmation prompt bypassed. -/
def exArgsDrySure : Args := { exArgsDry with i_am_sure := true }

/-- Arguments with token and assignee supplied on the command line. -/
def exArgsTok : Args :=
  { lp_bug_id := 123, github_token := "ghp_abc", github_assignee := "bob" }

/-- Committing arguments with the confirmation prompt bypassed. -/
def exArgsCommit : Args :=
  { lp_bug_id := 123, commit_changes := true, i_am_sure := true }

/-- A sample created GitHub issue. -/
def exIssue : GhIssue := { html_url := "https://github.com/sinanawad/utils/issues/1" }

/-- Arguments with a command-line token but no assignee (and auto-assign
active). -/
def exArgsTokNoAssignee : Args := { lp_bug_id := 123, github_token := "ghp_abc" }

/-! Helper lemmas. -/

theorem mainProceed_dry_muts (args : Args) (rn : Option String) (log0 : List String)
    (w : World) : (mainProceed args false rn log0 w).muts = [] := by
  cases rn with
  | none => simp [mainProceed, gh_create_issue]
  | some r =>
    by_cases hd : args.do_not_assign <;> simp [mainProceed, gh_create_issue, hd]

theorem mainProceed_dry_finalBug (args : Args) (rn : Option String) (log0 : List String)
    (w : World) : (mainProceed args false rn log0 w).finalBug = w.bug := by
  cases rn with
  | none => simp [mainProceed, gh_create_issue]
  | some r =>
    by_cases hd : args.do_not_assign <;> simp [mainProceed, gh_create_issue, hd]

theorem mainAfterCreds_dry (args : Args) (details : Option (String × String))
    (log0 : List String) (w : World) (h : args.commit_changes = false) :
    (mainAfterCreds args details log0 w).muts = [] ∧
    (mainAfterCreds args details log0 w).finalBug = w.bug := by
  simp only [mainAfterCreds, h]
  repeat' split
  all_goals simp [mainProceed_dry_muts, mainProceed_dry_finalBug]

theorem main_dry (args : Args) (w : World) (h : args.commit_changes = false) :
    (main args w).muts = [] ∧ (main args w).finalBug = w.bug := by
  have hAC : ∀ (a : Args) (d : Option (String × String)) (l : List String),
      a.commit_changes = false →
      (mainAfterCreds a d l w).muts = [] ∧ (mainAfterCreds a d l w).finalBug = w.bug :=
    fun a d l hh => mainAfterCreds_dry a d l w hh
  simp only [main]
  repeat' split
  all_goals first
    | exact hAC _ _ _ h
    | simp

/-! Claim theorems. -/

/-- C1: for every run with the commit-changes flag false (dry run), no
mutating remote call is made — in particular no GitHub issue is created —
and the Launchpad bug's server-side tag set and comment list are unchanged
when the process exits, no matter how far the flow proceeds (including
past the confirmation prompt). -/
theorem lp2gh_C1 (args : Args) (w : World) (h : args.commit_changes = false) :
    (main args w).muts = [] ∧ (main args w).finalBug = w.bug :=
  main_dry args w h

theorem lp2gh_C1_witness :
    exArgsDrySure.commit_changes = false ∧
    ((main exArgsDrySure exWorld).muts = [] ∧
      (main exArgsDrySure exWorld).finalBug = exWorld.bug) :=
  ⟨rfl, lp2gh_C1 exArgsDrySure exWorld rfl⟩

/-- C2: contrary to the claim, a run that supplies the token via the
--github_token flag (with an assignee, so every earlier check passes) does
not construct the GitHub client: the local `gh_user_details` is assigned
only on the gh-CLI path, so the `gh_login(gh_user_details)` call raises
UnboundLocalError before the destination session exists.  This theorem
evaluates the run at that failing input. -/
theorem lp2gh_C2_bug :
    (main exArgsTok exWorld).outcome = Outcome.crashed
      "UnboundLocalError: local variable \x27gh_user_details\x27 referenced before assignment" := by
  decide

/-- C3 counterexample: in a concrete dry run the process exits normally
(status 0) after printing that the issue was not created, with no mutating
call at all — so the source-record-update step never runs and no html_url
field is dereferenced on an absent result, contrary to the claim. -/
theorem lp2gh_C3_cex :
    (main exArgsDrySure exWorld).outcome = Outcome.exited 0 ∧
    "GH: Issue was NOT created. Exiting." ∈ (main exArgsDrySure exWorld).log ∧
    (main exArgsDrySure exWorld).muts = [] := by
  decide

/-- C3 amended: when the commit flag is false the issue-creation step
returns no object, and `main` then detects the absent result and exits
(status 0, printing that the issue was not created) before the
source-record-update step, so no link field is dereferenced. -/
theorem lp2gh_C3_amended (args : Args) (r : String) (log0 : List String) (w : World) :
    (gh_create_issue w.bug args false (some r) w).1 = Except.ok none ∧
    (mainProceed args false (some r) log0 w).outcome = Outcome.exited 0 ∧
    (mainProceed args false (some r) log0 w).muts = [] ∧
    "GH: Issue was NOT created. Exiting." ∈ (mainProceed args false (some r) log0 w).log := by
  by_cases hd : args.do_not_assign <;> simp [mainProceed, gh_create_issue, hd]

/-- C4 counterexample: with the commit flag unset, `lp_update_bug` still
performs the mutating `newMessage` call on the Launchpad bug, and its log
contains no line describing an action it would have taken — so not every
mutating step is gated by the flag, contrary to the claim. -/
theorem lp2gh_C4_cex :
    (lp_update_bug exBug exIssue false exWorld).2.1 =
      [MutCall.lpNewMessage (lp_move_comment exIssue exWorld)] ∧
    (lp_update_bug exBug exIssue false exWorld).2.2 =
      ["LP: Added GitHub issue link",
       "LP: Added tag \"relocated-to-github\"",
       "LP: Bug was NOT saved"] := by
  decide

/-- C4 amended: inside `gh_create_issue` every mutating GitHub step (issue
creation, origin-link comment, labels, assignment) is gated by the commit
flag and the dry run logs a "would create" line for the creation step
only; in `lp_update_bug` the tag save is gated (logging that the bug was
not saved) but the source-record comment (`newMessage`) is not gated — in
a dry run it is avoided only because `main` exits before `lp_update_bug`
is called. -/
theorem lp2gh_C4_amended (bug : LpBug) (args : Args) (r : String) (issue : GhIssue)
    (w : World) :
    (gh_create_issue bug args false (some r) w).2.1 = [] ∧
    ("GH: Dry-run: Would create new issue: " ++ bug.title) ∈
      (gh_create_issue bug args false (some r) w).2.2 ∧
    (lp_update_bug bug issue false w).2.1 =
      [MutCall.lpNewMessage (lp_move_comment issue w)] ∧
    "LP: Bug was NOT saved" ∈ (lp_update_bug bug issue false w).2.2 := by
  by_cases hd : args.do_not_assign <;>
    simp [gh_create_issue, lp_update_bug, hd]

/-- C5: the synthesized issue title is "LP:" ++ id ++ " " ++ title and
the body is the bug description verbatim: the first mutating call of
`gh_create_issue` in commit mode is exactly that issue creation; in
particular for id 123, title "Crash on save", description "Steps..." the
created issue is titled "LP:123 Crash on save" with body "Steps...". -/
theorem lp2gh_C5 (bug : LpBug) (args : Args) (r : String) (w : World) :
    (gh_create_issue bug args true (some r) w).2.1.head? =
      some (MutCall.ghCreateIssue ("LP:" ++ toString bug.id ++ " " ++ bug.title)
        bug.description) ∧
    (gh_create_issue exBug args true (some r) w).2.1.head? =
      some (MutCall.ghCreateIssue "LP:123 Crash on save" "Steps...") := by
  constructor
  · cases hti : bug.task_importances with
    | nil => simp [gh_create_issue, hti]
    | cons imp rest =>
      by_cases hd : args.do_not_assign <;> simp [gh_create_issue, hti, hd]
  · by_cases hd : args.do_not_assign <;>
      simp [gh_create_issue, exBug, hd] <;> rfl

/-! Reduction lemmas for the later claims. -/

theorem main_cli_some (args : Args) (w : World) (tok acct : String)
    (h1 : args.github_token = "None") (h2 : w.ghCliResult = some (tok, acct)) :
    main args w =
      if args.github_assignee = "None" then
        mainAfterCreds { args with github_token := tok, github_assignee := acct }
          (some (tok, acct)) (cliLogA acct) w
      else
        mainAfterCreds { args with github_token := tok }
          (some (tok, args.github_assignee)) (cliLogB acct args.github_assignee) w := by
  simp [main, h1, h2, cliLogA, cliLogB]

theorem check_not_fires (args : Args) (w : World) (tok acct : String)
    (h1 : args.github_token = "None") (h2 : w.ghCliResult = some (tok, acct))
    (h3 : args.do_not_assign = true ∨ resolvedAssignee args w ≠ "None") :
    (args.github_assignee = "None" → ¬(args.do_not_assign = false ∧ acct = "None")) ∧
    (¬ args.github_assignee = "None" →
      ¬(args.do_not_assign = false ∧ args.github_assignee = "None")) := by
  constructor
  · intro ha hc
    rcases h3 with hd | hr
    · rw [hd] at hc
      exact absurd hc.1 (by simp)
    · have hres : resolvedAssignee args w = acct := by
        simp [resolvedAssignee, h1, h2, ha]
      rw [hres] at hr
      exact hr hc.2
  · intro ha hc
    exact ha hc.2

theorem AC_check_exit (a : Args) (d : Option (String × String)) (l : List String)
    (w : World) (hcheck : a.do_not_assign = false ∧ a.github_assignee = "None") :
    (mainAfterCreds a d l w).outcome = Outcome.exited 0 ∧
    (mainAfterCreds a d l w).muts = [] ∧
    (mainAfterCreds a d l w).finalBug = w.bug := by
  simp only [mainAfterCreds]
  rw [if_pos hcheck]
  simp

theorem AC_tagged (a : Args) (d : String × String) (l : List String) (w : World)
    (hcheck : ¬(a.do_not_assign = false ∧ a.github_assignee = "None"))
    (htag : RELOC_TAG ∈ w.bug.tags) :
    (mainAfterCreds a (some d) l w).outcome = Outcome.exited 0 ∧
    (mainAfterCreds a (some d) l w).muts = [] ∧
    (mainAfterCreds a (some d) l w).finalBug = w.bug ∧
    ("Bug " ++ toString w.bug.id ++ " was already relocated to GitHub! (it has the "
      ++ RELOC_TAG ++ " tag)") ∈ (mainAfterCreds a (some d) l w).log := by
  simp only [mainAfterCreds]
  repeat' split
  all_goals simp_all

theorem mainProceed_log_mono (args : Args) (c : Bool) (rn : Option String)
    (log0 : List String) (w : World) (s : String) (hs : s ∈ log0) :
    s ∈ (mainProceed args c rn log0 w).log := by
  simp only [mainProceed]
  split <;> simp [hs]

theorem AC_optout (a : Args) (d : String × String) (l : List String) (w : World)
    (hcheck : ¬(a.do_not_assign = false ∧ a.github_assignee = "None"))
    (htag : RELOC_TAG ∉ w.bug.tags) (hsure : a.i_am_sure = false)
    (hp : ¬ lowerStr w.promptLine = "y") :
    (mainAfterCreds a (some d) l w).outcome = Outcome.exited 0 ∧
    (mainAfterCreds a (some d) l w).muts = [] ∧
    (mainAfterCreds a (some d) l w).finalBug = w.bug ∧
    "User opted out." ∈ (mainAfterCreds a (some d) l w).log := by
  simp only [mainAfterCreds]
  repeat' split
  all_goals simp_all

theorem AC_yes (a : Args) (d : String × String) (l : List String) (w : World)
    (hcheck : ¬(a.do_not_assign = false ∧ a.github_assignee = "None"))
    (htag : RELOC_TAG ∉ w.bug.tags) (hsure : a.i_am_sure = false)
    (hp : lowerStr w.promptLine = "y") :
    "\nProceeding..." ∈ (mainAfterCreds a (some d) l w).log := by
  simp only [mainAfterCreds]
  repeat' split
  all_goals first
    | (apply mainProceed_log_mono; simp; done)
    | simp_all

theorem AC_proceed_eq (a : Args) (d : String × String) (l : List String) (w : World)
    (hcheck : ¬(a.do_not_assign = false ∧ a.github_assignee = "None"))
    (htag : RELOC_TAG ∉ w.bug.tags)
    (hyes : a.i_am_sure = true ∨ lowerStr w.promptLine = "y") :
    ∃ log0, mainAfterCreds a (some d) l w =
      mainProceed a a.commit_changes
        (if a.github_repo = "" then none else some a.github_repo) log0 w := by
  simp only [mainAfterCreds]
  rw [if_neg hcheck, if_neg htag]
  rcases hyes with hs | hp
  · rw [if_pos hs]
    exact ⟨_, rfl⟩
  · by_cases hs : a.i_am_sure = true
    · rw [if_pos hs]
      exact ⟨_, rfl⟩
    · rw [if_neg hs, if_pos hp]
      exact ⟨_, rfl⟩

theorem mainProceed_commit_props (a : Args) (c : Bool) (rn : Option String)
    (log0 : List String) (w : World) (imp : String) (rest : List String)
    (hc : c = true) (hrn : ∃ r, rn = some r)
    (himp : w.bug.task_importances = imp :: rest) :
    (mainProceed a c rn log0 w).outcome = Outcome.exited 0 ∧
    (mainProceed a c rn log0 w).muts.countP MutCall.isCreate = 1 ∧
    (mainProceed a c rn log0 w).muts.countP MutCall.isNewMessage = 1 ∧
    (mainProceed a c rn log0 w).finalBug.tags = w.bug.tags ++ [RELOC_TAG] ∧
    (mainProceed a c rn log0 w).finalBug.messages.length = w.bug.messages.length + 1 := by
  obtain ⟨r, rfl⟩ := hrn
  subst hc
  by_cases hd : a.do_not_assign <;>
    simp [mainProceed, gh_create_issue, lp_update_bug, himp, hd, MutCall.isCreate,
      MutCall.isNewMessage, List.countP_cons, List.countP_nil]

theorem mainProceed_exit_code (a : Args) (c : Bool) (rn : Option String)
    (l : List String) (w : World) :
    (mainProceed a c rn l w).outcome = Outcome.exited 0 ∨
    ∃ m, (mainProceed a c rn l w).outcome = Outcome.crashed m := by
  simp only [mainProceed]
  split
  · exact Or.inr ⟨_, rfl⟩
  · exact Or.inl rfl
  · exact Or.inl rfl

theorem mainAfterCreds_exit_code (a : Args) (d : Option (String × String))
    (l : List String) (w : World) :
    (mainAfterCreds a d l w).outcome = Outcome.exited 0 ∨
    ∃ m, (mainAfterCreds a d l w).outcome = Outcome.crashed m := by
  simp only [mainAfterCreds]
  repeat' split
  all_goals first
    | exact mainProceed_exit_code _ _ _ _ _
    | exact Or.inl rfl
    | exact Or.inr ⟨_, rfl⟩

theorem main_exit_code (args : Args) (w : World) :
    (main args w).outcome = Outcome.exited 0 ∨
    ∃ m, (main args w).outcome = Outcome.crashed m := by
  simp only [main]
  repeat' split
  all_goals first
    | exact mainAfterCreds_exit_code _ _ _ _
    | exact Or.inl rfl

/-- C6: for every run that reaches the bug fetch (token resolved through
the gh CLI, assignee requirement satisfied) whose bug already carries the
relocation tag, the run prints the already-relocated message and exits
with status 0 right after the fetch, with zero mutating API calls on
either system and the bug unchanged. -/
theorem lp2gh_C6 (args : Args) (w : World) (tok acct : String)
    (h1 : args.github_token = "None") (h2 : w.ghCliResult = some (tok, acct))
    (h3 : args.do_not_assign = true ∨ resolvedAssignee args w ≠ "None")
    (h4 : RELOC_TAG ∈ w.bug.tags) :
    (main args w).outcome = Outcome.exited 0 ∧
    (main args w).muts = [] ∧
    (main args w).finalBug = w.bug ∧
    ("Bug " ++ toString w.bug.id ++ " was already relocated to GitHub! (it has the "
      ++ RELOC_TAG ++ " tag)") ∈ (main args w).log := by
  rw [main_cli_some args w tok acct h1 h2]
  by_cases ha : args.github_assignee = "None"
  · rw [if_pos ha]
    exact AC_tagged _ (tok, acct) _ w ((check_not_fires args w tok acct h1 h2 h3).1 ha) h4
  · rw [if_neg ha]
    exact AC_tagged _ (tok, args.github_assignee) _ w
      ((check_not_fires args w tok acct h1 h2 h3).2 ha) h4

theorem lp2gh_C6_witness :
    (main exArgsDry exWorldTagged).outcome = Outcome.exited 0 ∧
    (main exArgsDry exWorldTagged).muts = [] ∧
    (main exArgsDry exWorldTagged).finalBug = exWorldTagged.bug ∧
    ("Bug " ++ toString exWorldTagged.bug.id
      ++ " was already relocated to GitHub! (it has the " ++ RELOC_TAG ++ " tag)") ∈
      (main exArgsDry exWorldTagged).log :=
  lp2gh_C6 exArgsDry exWorldTagged "ghp_tok" "alice" rfl rfl (Or.inr (by decide))
    (by decide)

/-- C7: for every run without the bypass flag that reaches the
confirmation prompt, the flow proceeds exactly when the operator line
case-insensitively equals "y"; any other input (empty, "n", "yes", ...)
exits with status 0, zero mutating calls and the bug unchanged, after
printing "User opted out.". -/
theorem lp2gh_C7 (args : Args) (w : World) (tok acct : String)
    (h1 : args.github_token = "None") (h2 : w.ghCliResult = some (tok, acct))
    (h3 : args.do_not_assign = true ∨ resolvedAssignee args w ≠ "None")
    (h4 : RELOC_TAG ∉ w.bug.tags) (h5 : args.i_am_sure = false) :
    (¬ lowerStr w.promptLine = "y" →
      (main args w).outcome = Outcome.exited 0 ∧
      (main args w).muts = [] ∧
      (main args w).finalBug = w.bug ∧
      "User opted out." ∈ (main args w).log) ∧
    (lowerStr w.promptLine = "y" → "\nProceeding..." ∈ (main args w).log) := by
  rw [main_cli_some args w tok acct h1 h2]
  by_cases ha : args.github_assignee = "None"
  · rw [if_pos ha]
    have hcheck := (check_not_fires args w tok acct h1 h2 h3).1 ha
    exact ⟨fun hp => AC_optout _ (tok, acct) _ w hcheck h4 h5 hp,
      fun hp => AC_yes _ (tok, acct) _ w hcheck h4 h5 hp⟩
  · rw [if_neg ha]
    have hcheck := (check_not_fires args w tok acct h1 h2 h3).2 ha
    exact ⟨fun hp => AC_optout _ (tok, args.github_assignee) _ w hcheck h4 h5 hp,
      fun hp => AC_yes _ (tok, args.github_assignee) _ w hcheck h4 h5 hp⟩

theorem lp2gh_C7_witness :
    (main exArgsDry exWorld).outcome = Outcome.exited 0 ∧
    (main exArgsDry exWorld).muts = [] ∧
    (main exArgsDry exWorld).finalBug = exWorld.bug ∧
    "User opted out." ∈ (main exArgsDry exWorld).log :=
  (lp2gh_C7 exArgsDry exWorld "ghp_tok" "alice" rfl rfl (Or.inr (by decide))
    (by decide) rfl).1 (by decide)

/-- C8: every run with the commit flag set and the confirmation prompt
satisfied or bypassed that completes normally creates exactly one GitHub
issue, posts exactly one Launchpad comment, and the bug record ends with
exactly one additional tag (the relocation tag, appended at the end) and
exactly one more comment. -/
theorem lp2gh_C8 (args : Args) (w : World) (tok acct : String)
    (h1 : args.github_token = "None") (h2 : w.ghCliResult = some (tok, acct))
    (h3 : args.do_not_assign = true ∨ resolvedAssignee args w ≠ "None")
    (h4 : RELOC_TAG ∉ w.bug.tags)
    (h5 : args.commit_changes = true)
    (h6 : args.i_am_sure = true ∨ lowerStr w.promptLine = "y")
    (h7 : ¬ args.github_repo = "")
    (h8 : w.bug.task_importances ≠ []) :
    (main args w).outcome = Outcome.exited 0 ∧
    (main args w).muts.countP MutCall.isCreate = 1 ∧
    (main args w).muts.countP MutCall.isNewMessage = 1 ∧
    (main args w).finalBug.tags = w.bug.tags ++ [RELOC_TAG] ∧
    (main args w).finalBug.messages.length = w.bug.messages.length + 1 := by
  obtain ⟨imp, rest, himp⟩ := List.exists_cons_of_ne_nil h8
  rw [main_cli_some args w tok acct h1 h2]
  by_cases ha : args.github_assignee = "None"
  · rw [if_pos ha]
    obtain ⟨log0, heq⟩ :=
      AC_proceed_eq { args with github_token := tok, github_assignee := acct }
        (tok, acct) (cliLogA acct) w
        ((check_not_fires args w tok acct h1 h2 h3).1 ha) h4 h6
    rw [heq]
    exact mainProceed_commit_props _ _ _ log0 w imp rest h5
      ⟨args.github_repo, by simp [h7]⟩ himp
  · rw [if_neg ha]
    obtain ⟨log0, heq⟩ :=
      AC_proceed_eq { args with github_token := tok }
        (tok, args.github_assignee) (cliLogB acct args.github_assignee) w
        ((check_not_fires args w tok acct h1 h2 h3).2 ha) h4 h6
    rw [heq]
    exact mainProceed_commit_props _ _ _ log0 w imp rest h5
      ⟨args.github_repo, by simp [h7]⟩ himp

theorem lp2gh_C8_witness :
    (main exArgsCommit exWorld).outcome = Outcome.exited 0 ∧
    (main exArgsCommit exWorld).muts.countP MutCall.isCreate = 1 ∧
    (main exArgsCommit exWorld).muts.countP MutCall.isNewMessage = 1 ∧
    (main exArgsCommit exWorld).finalBug.tags = exWorld.bug.tags ++ [RELOC_TAG] ∧
    (main exArgsCommit exWorld).finalBug.messages.length =
      exWorld.bug.messages.length + 1 :=
  lp2gh_C8 exArgsCommit exWorld "ghp_tok" "alice" rfl rfl (Or.inr (by decide))
    (by decide) rfl (Or.inl rfl) (by decide) (by decide)

/-- C9: for every run where auto-assign is active (no --do_not_assign)
and the assignee resolves to the unset sentinel "None", the run exits
with status 0 before any remote mutation, leaving the bug unchanged. -/
theorem lp2gh_C9 (args : Args) (w : World) (h1 : args.do_not_assign = false)
    (h2 : resolvedAssignee args w = "None") :
    (main args w).outcome = Outcome.exited 0 ∧
    (main args w).muts = [] ∧
    (main args w).finalBug = w.bug := by
  by_cases ht : args.github_token = "None"
  · cases hcli : w.ghCliResult with
    | none => simp [main, ht, hcli]
    | some p =>
      obtain ⟨tok, acct⟩ := p
      rw [main_cli_some args w tok acct ht hcli]
      have h2' := h2
      simp only [resolvedAssignee] at h2'
      rw [if_pos ht] at h2'
      simp only [hcli] at h2'
      by_cases ha : args.github_assignee = "None"
      · rw [if_pos ha]
        rw [if_pos ha] at h2'
        exact AC_check_exit _ (some (tok, acct)) _ w ⟨h1, h2'⟩
      · rw [if_neg ha] at h2'
        exact absurd h2' ha
  · have h2' := h2
    simp only [resolvedAssignee] at h2'
    rw [if_neg ht] at h2'
    simp only [main]
    rw [if_neg ht]
    exact AC_check_exit args none _ w ⟨h1, h2'⟩

theorem lp2gh_C9_witness :
    exArgsTokNoAssignee.do_not_assign = false ∧
    resolvedAssignee exArgsTokNoAssignee exWorld = "None" ∧
    ((main exArgsTokNoAssignee exWorld).outcome = Outcome.exited 0 ∧
      (main exArgsTokNoAssignee exWorld).muts = [] ∧
      (main exArgsTokNoAssignee exWorld).finalBug = exWorld.bug) :=
  ⟨rfl, by decide, lp2gh_C9 exArgsTokNoAssignee exWorld rfl (by decide)⟩

/-- C10: every run that terminates via an exit (rather than an unhandled
exception) — credential failure, missing assignee, already-migrated
guard, operator decline, the dry-run exit, and the success path — does so
with exit status 0, so no guard failure is distinguishable from success
by exit code. -/
theorem lp2gh_C10 (args : Args) (w : World) (c : Nat)
    (h : (main args w).outcome = Outcome.exited c) : c = 0 := by
  rcases main_exit_code args w with h0 | ⟨m, hm⟩
  · rw [h] at h0
    simpa using h0
  · rw [h] at hm
    exact Outcome.noConfusion hm

theorem lp2gh_C10_witness :
    (main exArgsDry exWorld).outcome = Outcome.exited 0 ∧ 0 = 0 :=
  ⟨by decide, lp2gh_C10 exArgsDry exWorld 0 (by decide)⟩

end Lp2gh
